import Mathlib

/-!
Verification development for the ammonia-plasma synthesis simulator.

The repository contains two historical implementations of its kinetics core:
`src/app/kinetics.py` (the "extended", 7-species variant) and
`src/data/kinetics.py` (the "reduced", 6-species variant).  Both expose

  * `get_rate_coefficient(reaction, df, ...)` — look a reaction up in the
    rate table and produce a numeric rate coefficient, evaluating stored
    expression strings over the plasma state;
  * `saha_electron_density(...)` — an electron-density model;
  * `plasma_kinetics(...)` — the ODE right-hand side.

This file gives a shallow embedding of those functions.  Python floats are
modelled by real numbers; the Python `eval` applied to the small arithmetic
expression language actually used by the rate tables (numbers, identifiers,
`+ - * / ** ^`, parentheses, and the `exp` function) is modelled by an
executable tokenizer and recursive-descent parser producing an `RExpr`,
denoted into `Option ℝ`.  A `none` denotation models a raised-and-caught
Python exception (syntax error, unknown identifier, division by zero,
non-numeric operand of `^`).
-/

namespace AmmoniaPlasma

/-! ## Tokens and lexer for the rate-expression mini-language -/

/-- A Python numeric literal, kept symbolic: integer part, fractional
digits (value and count), and an optional signed decimal exponent.  Its
real value is `(intPart + fracPart / 10 ^ fracLen) * 10 ^ (± expVal)`.
Keeping the parts symbolic (rather than a `ℚ`) keeps the lexer and parser
fully decidable. -/
structure NumLit where
  intPart : ℕ
  fracPart : ℕ
  fracLen : ℕ
  expNeg : Bool
  expVal : ℕ
  deriving DecidableEq

/-- The exact real value of a numeric literal. -/
noncomputable def numLitVal (l : NumLit) : ℝ :=
  ((l.intPart : ℝ) + (l.fracPart : ℝ) / 10 ^ l.fracLen) *
    (if l.expNeg then ((10 : ℝ) ^ l.expVal)⁻¹ else 10 ^ l.expVal)

/-- Tokens of the arithmetic expression language understood by the rate
tables: numeric literals, identifiers, `+ - * / ** ^` and parentheses. -/
inductive Tok where
  | num (l : NumLit)
  | ident (s : String)
  | plus
  | minus
  | star
  | slash
  | dstar
  | caret
  | lparen
  | rparen
  deriving DecidableEq

/-- Numeric value of a list of decimal digit characters. -/
def digitsVal (cs : List Char) : ℕ :=
  cs.foldl (fun n c => 10 * n + (c.toNat - 48)) 0

/-- Lex one Python numeric literal (integer or float, with optional
fractional part and optional scientific exponent) from the front of the
character list, returning the symbolic literal and the rest. -/
def lexNum (cs : List Char) : Option (NumLit × List Char) :=
  let ip := (cs.span Char.isDigit).1
  let r1 := (cs.span Char.isDigit).2
  let fracStep : Option (List Char) × List Char :=
    match r1 with
    | '.' :: r => ((r.span Char.isDigit).1, (r.span Char.isDigit).2)
    | _ => (none, r1)
  let fp := fracStep.1
  let r2 := fracStep.2
  if ip.isEmpty && (fp.getD []).isEmpty then
    none
  else
    let base : NumLit :=
      { intPart := digitsVal ip
        fracPart := digitsVal (fp.getD [])
        fracLen := (fp.getD []).length
        expNeg := false
        expVal := 0 }
    match r2 with
    | c :: r3 =>
      if c == 'e' || c == 'E' then
        let signStep : Bool × List Char :=
          match r3 with
          | '+' :: r => (false, r)
          | '-' :: r => (true, r)
          | _ => (false, r3)
        let ed := (signStep.2.span Char.isDigit).1
        let r5 := (signStep.2.span Char.isDigit).2
        if ed.isEmpty then none
        else some ({ base with expNeg := signStep.1, expVal := digitsVal ed }, r5)
      else some (base, r2)
    | [] => some (base, [])

/-- Characters that may start a Python identifier. -/
def isIdentStart (c : Char) : Bool := c.isAlpha || c == '_'

/-- Characters that may continue a Python identifier. -/
def isIdentChar (c : Char) : Bool := c.isAlpha || c == '_' || c.isDigit

/-- Fuel-driven main lexer loop.  Every step consumes at least one input
character, so fuel `length + 1` always suffices; running out of fuel (or an
unrecognized character, modelling a Python syntax error) yields `none`. -/
def lexLoop : ℕ → List Char → Option (List Tok)
  | _, [] => some []
  | 0, _ => none
  | fuel + 1, c :: cs =>
    if c == ' ' || c == '\t' then lexLoop fuel cs
    else if c == '+' then (lexLoop fuel cs).map (Tok.plus :: ·)
    else if c == '-' then (lexLoop fuel cs).map (Tok.minus :: ·)
    else if c == '/' then (lexLoop fuel cs).map (Tok.slash :: ·)
    else if c == '^' then (lexLoop fuel cs).map (Tok.caret :: ·)
    else if c == '(' then (lexLoop fuel cs).map (Tok.lparen :: ·)
    else if c == ')' then (lexLoop fuel cs).map (Tok.rparen :: ·)
    else if c == '*' then
      match cs with
      | '*' :: cs2 => (lexLoop fuel cs2).map (Tok.dstar :: ·)
      | _ => (lexLoop fuel cs).map (Tok.star :: ·)
    else if c.isDigit || c == '.' then
      match lexNum (c :: cs) with
      | some (l, rest) => (lexLoop fuel rest).map (Tok.num l :: ·)
      | none => none
    else if isIdentStart c then
      let idChars := ((c :: cs).span isIdentChar).1
      let rest := ((c :: cs).span isIdentChar).2
      (lexLoop fuel rest).map (Tok.ident (String.mk idChars) :: ·)
    else none

/-- Lex a whole string into tokens. -/
def lexTokens (s : String) : Option (List Tok) :=
  lexLoop (s.length + 1) s.toList

/-! ## Abstract syntax and recursive-descent parser

The parser follows Python's precedence for the operators occurring in rate
expressions: `^` (Python bitwise xor) binds loosest, then `+ -`, then
`* /`, then unary minus, then `**` (right-associative, binding tighter than
unary minus on its left and allowing a signed exponent). -/

/-- Abstract syntax of rate expressions. -/
inductive RExpr where
  | lit (l : NumLit)
  | var (s : String)
  | call (f : String) (a : RExpr)
  | neg (a : RExpr)
  | add (a b : RExpr)
  | sub (a b : RExpr)
  | mul (a b : RExpr)
  | div (a b : RExpr)
  | pow (a b : RExpr)
  | bxor (a b : RExpr)
  deriving DecidableEq

mutual

/-- Parse an atom: literal, identifier, call `f(expr)`, or parenthesized
expression. -/
def parseAtom : ℕ → List Tok → Option (RExpr × List Tok)
  | 0, _ => none
  | f + 1, ts =>
    match ts with
    | Tok.num l :: ts1 => some (RExpr.lit l, ts1)
    | Tok.ident name :: Tok.lparen :: ts1 =>
      match parseFull f ts1 with
      | some (a, Tok.rparen :: ts2) => some (RExpr.call name a, ts2)
      | _ => none
    | Tok.ident name :: ts1 => some (RExpr.var name, ts1)
    | Tok.lparen :: ts1 =>
      match parseFull f ts1 with
      | some (a, Tok.rparen :: ts2) => some (a, ts2)
      | _ => none
    | _ => none

/-- Parse a power: `atom` optionally followed by `** unary`. -/
def parsePow : ℕ → List Tok → Option (RExpr × List Tok)
  | 0, _ => none
  | f + 1, ts =>
    match parseAtom f ts with
    | some (a, Tok.dstar :: ts1) =>
      match parseUnary f ts1 with
      | some (b, ts2) => some (RExpr.pow a b, ts2)
      | none => none
    | some (a, ts1) => some (a, ts1)
    | none => none

/-- Parse a unary item: any number of leading `+`/`-` signs over a power. -/
def parseUnary : ℕ → List Tok → Option (RExpr × List Tok)
  | 0, _ => none
  | f + 1, Tok.minus :: ts =>
    match parseUnary f ts with
    | some (a, ts1) => some (RExpr.neg a, ts1)
    | none => none
  | f + 1, Tok.plus :: ts => parseUnary f ts
  | f + 1, ts => parsePow f ts

/-- Left-associative fold of `*` and `/` continuations. -/
def parseMulLoop : ℕ → RExpr → List Tok → Option (RExpr × List Tok)
  | 0, _, _ => none
  | f + 1, acc, Tok.star :: ts =>
    match parseUnary f ts with
    | some (b, ts1) => parseMulLoop f (RExpr.mul acc b) ts1
    | none => none
  | f + 1, acc, Tok.slash :: ts =>
    match parseUnary f ts with
    | some (b, ts1) => parseMulLoop f (RExpr.div acc b) ts1
    | none => none
  | _ + 1, acc, ts => some (acc, ts)

/-- Parse a product of unary items. -/
def parseMul : ℕ → List Tok → Option (RExpr × List Tok)
  | 0, _ => none
  | f + 1, ts =>
    match parseUnary f ts with
    | some (a, ts1) => parseMulLoop f a ts1
    | none => none

/-- Left-associative fold of `+` and `-` continuations. -/
def parseAddLoop : ℕ → RExpr → List Tok → Option (RExpr × List Tok)
  | 0, _, _ => none
  | f + 1, acc, Tok.plus :: ts =>
    match parseMul f ts with
    | some (b, ts1) => parseAddLoop f (RExpr.add acc b) ts1
    | none => none
  | f + 1, acc, Tok.minus :: ts =>
    match parseMul f ts with
    | some (b, ts1) => parseAddLoop f (RExpr.sub acc b) ts1
    | none => none
  | _ + 1, acc, ts => some (acc, ts)

/-- Parse a sum of products. -/
def parseAdd : ℕ → List Tok → Option (RExpr × List Tok)
  | 0, _ => none
  | f + 1, ts =>
    match parseMul f ts with
    | some (a, ts1) => parseAddLoop f a ts1
    | none => none

/-- Left-associative fold of `^` continuations. -/
def parseXorLoop : ℕ → RExpr → List Tok → Option (RExpr × List Tok)
  | 0, _, _ => none
  | f + 1, acc, Tok.caret :: ts =>
    match parseAdd f ts with
    | some (b, ts1) => parseXorLoop f (RExpr.bxor acc b) ts1
    | none => none
  | _ + 1, acc, ts => some (acc, ts)

/-- Parse a full expression (the `^` level is the loosest). -/
def parseFull : ℕ → List Tok → Option (RExpr × List Tok)
  | 0, _ => none
  | f + 1, ts =>
    match parseAdd f ts with
    | some (a, ts1) => parseXorLoop f a ts1
    | none => none

end

/-- Parse a complete rate-expression string: lex, parse, and require all
tokens consumed.  `none` models a Python `SyntaxError` (caught by the
evaluator). -/
def parseRate (s : String) : Option RExpr :=
  match lexTokens s with
  | none => none
  | some toks =>
    match parseFull ((toks.length + 1) * 16) toks with
    | some (e, []) => some e
    | _ => none

/-! ## Denotation

Evaluation of a parsed expression over the reals.  `none` models a Python
exception raised during evaluation and caught by the rate evaluator:
unknown identifier (`NameError`), call of anything but `exp`
(`TypeError`/`NameError`), division by zero (`ZeroDivisionError`), and `^`
applied to real-valued operands (`TypeError`: Python `^` is bitwise xor,
undefined on floats — the rate expressions are float-valued).  Python's
finite float range and its rejection of fractional powers of negative
bases are not modelled (no claim depends on them); `**` denotes `Real.rpow`
and `exp` the natural exponential. -/

/-- Evaluate an expression in an environment binding identifier names to
real values. -/
noncomputable def dEval (env : String → Option ℝ) : RExpr → Option ℝ
  | RExpr.lit l => some (numLitVal l)
  | RExpr.var s => env s
  | RExpr.call f a =>
    if f = "exp" then (dEval env a).map Real.exp else none
  | RExpr.neg a => (dEval env a).map (fun x => -x)
  | RExpr.add a b =>
    match dEval env a, dEval env b with
    | some x, some y => some (x + y)
    | _, _ => none
  | RExpr.sub a b =>
    match dEval env a, dEval env b with
    | some x, some y => some (x - y)
    | _, _ => none
  | RExpr.mul a b =>
    match dEval env a, dEval env b with
    | some x, some y => some (x * y)
    | _, _ => none
  | RExpr.div a b =>
    match dEval env a, dEval env b with
    | some x, some y => if y = 0 then none else some (x / y)
    | _, _ => none
  | RExpr.pow a b =>
    match dEval env a, dEval env b with
    | some x, some y => some (x ^ y)
    | _, _ => none
  | RExpr.bxor _ _ => none

/-! ## Model of Python `float(str)` -/

/-- Python `float(string)`: strip surrounding whitespace, optional sign,
then a complete numeric literal with nothing left over.  (`inf`/`nan`
spellings are not modelled; no rate table uses them.) -/
def pyFloatCore (cs : List Char) : Option NumLit :=
  match lexNum cs with
  | some (l, []) => some l
  | _ => none

/-- Strip leading and trailing whitespace from a character list (model of
Python `str.strip()`). -/
def trimChars (cs : List Char) : List Char :=
  ((cs.dropWhile Char.isWhitespace).reverse.dropWhile Char.isWhitespace).reverse

/-- Model of Python `float` applied to a string; the result is a sign flag
together with the literal.  `none` models the `ValueError` raised on a
non-numeric string. -/
def pyFloat (s : String) : Option (Bool × NumLit) :=
  match trimChars s.toList with
  | '+' :: rest => (pyFloatCore rest).map (fun l => (false, l))
  | '-' :: rest => (pyFloatCore rest).map (fun l => (true, l))
  | cs => (pyFloatCore cs).map (fun l => (false, l))

/-- The real value named by a parsed `float(string)` result. -/
noncomputable def pyFloatVal (p : Bool × NumLit) : ℝ :=
  if p.1 then -numLitVal p.2 else numLitVal p.2

/-! ## Rate table rows -/

/-- A rate-table cell: pandas delivers either a string or a numeric value
(the app variant branches on `isinstance(rate_expr, str)`, the data variant
on `isinstance(value, str)`). -/
inductive CellValue where
  | num (x : ℝ)
  | str (s : String)

/-- One row of the reaction rate table: the `Reaction` column and the rate
column (`Rate_Constant` in the app variant, `Value` in the data variant). -/
structure Row where
  reaction : String
  value : CellValue

/-- Does `pat` occur as a contiguous sublist starting at some position of
`hay`? -/
def listOccurs (pat : List Char) : List Char → Bool
  | [] => pat.isEmpty
  | c :: rest => pat.isPrefixOf (c :: rest) || listOccurs pat rest

/-- Substring test, modelling Python `pat in s`. -/
def strContains (s pat : String) : Bool :=
  listOccurs pat.toList s.toList

/-- Replace every `^` character by `**` (model of the Python
`value.replace('^', '**')` at `src/data/kinetics.py` line 47). -/
def replaceCaret : List Char → List Char
  | [] => []
  | '^' :: rest => '*' :: '*' :: replaceCaret rest
  | c :: rest => c :: replaceCaret rest

/-! ## Extended variant: `src/app/kinetics.py` -/

namespace App

/-- Row lookup of `src/app/kinetics.py` lines 39-42:
`df[df['Reaction'].str.strip() == reaction.strip()]` followed by
`.iloc[0]` — the first row whose trimmed reaction name equals the trimmed
argument. -/
def lookupReaction (df : List Row) (reaction : String) : Option Row :=
  (df.filter (fun r => trimChars r.reaction.toList == trimChars reaction.toList)).head?

/-- Environment of the `eval` call at `src/app/kinetics.py` line 53.  The
code first substitutes the decimal texts of `T_g`, `E_v`, `T_e` into the
expression string and rewrites `exp` to `np.exp`, then evaluates with
globals also binding `T_g`, `T_e`, `E_v` (and `np`); for expressions of
the mini-language grammar the composite behaves as evaluation with the
three variables bound and `exp` denoting the natural exponential, which is
how it is modelled here. -/
def evalEnv (T_e T_g E_v : ℝ) : String → Option ℝ := fun s =>
  if s = "T_e" then some T_e
  else if s = "T_g" then some T_g
  else if s = "E_v" then some E_v
  else none

/-- Evaluation of a stored expression string by the app variant
(`src/app/kinetics.py` lines 46-54).  Note that, unlike the data variant,
this code does NOT rewrite `^` to `**`, so `^` reaches Python `eval` as
bitwise xor and fails on float operands. -/
noncomputable def evalRateExpr (s : String) (T_e T_g E_v : ℝ) : Option ℝ :=
  (parseRate s).bind (dEval (evalEnv T_e T_g E_v))

/-- `get_rate_coefficient` of `src/app/kinetics.py` lines 23-62.  Returns
the rate together with the list of warning messages logged; every failure
path (reaction not found, expression evaluation error) degrades to rate 0
with a warning rather than raising — totality of this Lean function is the
model of "never raises to its caller". -/
noncomputable def get_rate_coefficient (reaction : String) (df : List Row)
    (T_e T_g E_v : ℝ) : ℝ × List String :=
  match lookupReaction df reaction with
  | none => (0, ["No data found for reaction: " ++ reaction])
  | some row =>
    match row.value with
    | CellValue.str s =>
      match evalRateExpr s T_e T_g E_v with
      | some r => (r, [])
      | none => (0, ["Error evaluating rate expression for reaction " ++ reaction])
    | CellValue.num x => (x, [])

/-- `saha_electron_density` of `src/app/kinetics.py` lines 6-21 (despite
its name, an empirical power-scaling model):
`max(1e11 * (power_density / 1.0) * (T_e / 2.0) ** 1.5, 1e10)`. -/
noncomputable def saha_electron_density (T_e power_density : ℝ) : ℝ :=
  max (1e11 * (power_density / 1.0) * (T_e / 2.0) ^ (1.5 : ℝ)) 1e10

/-- Pre-exponential factor of the electron-impact N2 dissociation rate,
`src/app/kinetics.py` line 92. -/
noncomputable def dissPreExpN2 : ℝ := 1e-9

/-- Threshold energy (eV) of the electron-impact N2 dissociation rate,
`src/app/kinetics.py` line 92. -/
noncomputable def dissThresholdN2 : ℝ := 9

/-- Pre-exponential factor of the electron-impact H2 dissociation rate,
`src/app/kinetics.py` line 93. -/
noncomputable def dissPreExpH2 : ℝ := 1e-9

/-- Threshold energy (eV) of the electron-impact H2 dissociation rate,
`src/app/kinetics.py` line 93. -/
noncomputable def dissThresholdH2 : ℝ := 8

/-- Species concentrations of the 7-species extended variant, in the order
of `src/app/kinetics.py` line 80. -/
structure Conc7 where
  N : ℝ
  H : ℝ
  H2 : ℝ
  NH : ℝ
  NH2 : ℝ
  NH3 : ℝ
  N2 : ℝ

/-- `plasma_kinetics` of `src/app/kinetics.py` lines 64-115: the 7-species
ODE right-hand side, with the fixed stiffness multipliers on the
table-driven rates and the hard-coded electron-impact dissociation
channels. -/
noncomputable def plasma_kinetics (t : ℝ) (y : Conc7) (df : List Row)
    (T_e T_g n_e catalyst_factor : ℝ) : Conc7 :=
  let k1 := (get_rate_coefficient "N + H2(v) -> H + NH" df T_e T_g 0).1 * 1e3
  let k2 := (get_rate_coefficient "NH3 + M -> NH2 + H + M" df T_e T_g 0).1 * 1e-2
  let k3 := (get_rate_coefficient "NH2 + H -> NH3" df T_e T_g 0).1 * 1e3 * catalyst_factor
  let k4 := (get_rate_coefficient "N + NH2 -> NH + NH" df T_e T_g 0).1 * 1e3
  let k5 := (get_rate_coefficient "N + H -> NH" df T_e T_g 0).1 * 1e3
  let k6 := (get_rate_coefficient "NH + H -> NH2" df T_e T_g 0).1 * 1e3
  let k7 := (get_rate_coefficient "H + NH2 -> H2 + NH" df T_e T_g 0).1 * 1e3
  let k_diss_N2 := dissPreExpN2 * Real.exp (-dissThresholdN2 / T_e)
  let k_diss_H2 := dissPreExpH2 * Real.exp (-dissThresholdH2 / T_e)
  let r1 := k1 * y.N * y.H2
  let r2 := k2 * y.NH3
  let r3 := k3 * y.NH2 * y.H
  let r4 := k4 * y.N * y.NH2
  let r5 := k5 * y.N * y.H
  let r6 := k6 * y.NH * y.H
  let r7 := k7 * y.H * y.NH2
  let r_diss_N2 := k_diss_N2 * n_e * y.N2
  let r_diss_H2 := k_diss_H2 * n_e * y.H2
  { N := -r1 - r4 - r5 + 2 * r_diss_N2
    H := r1 + r2 - r3 - r5 - r6 - r7 + 2 * r_diss_H2
    H2 := -r1 + r7 - r_diss_H2
    NH := r1 + r4 + r7 + r5 - r6
    NH2 := r2 + r6 - r3 - r4 - r7
    NH3 := r3 - r2
    N2 := -r_diss_N2 }

end App

/-! ## Reduced variant: `src/data/kinetics.py` -/

namespace Data

/-- Row lookup of `src/data/kinetics.py` line 40:
`df[df['Reaction'] == reaction]` followed by `.iloc[0]` — exact (untrimmed)
match, first matching row. -/
def lookupReaction (df : List Row) (reaction : String) : Option Row :=
  (df.filter (fun r => r.reaction.toList == reaction.toList)).head?

/-- Environment of the `eval` call at `src/data/kinetics.py` line 47: the
globals bind `Te`, `Tg` (no underscores, and no `E_v`) and `exp` as the
natural exponential. -/
def evalEnv (T_e T_g : ℝ) : String → Option ℝ := fun s =>
  if s = "Te" then some T_e
  else if s = "Tg" then some T_g
  else none

/-- Evaluation of a stored expression string by the data variant
(`src/data/kinetics.py` line 47): `^` is rewritten to `**` before the
string is evaluated with `Te`, `Tg` and `exp` bound. -/
noncomputable def evalRateExpr (s : String) (T_e T_g : ℝ) : Option ℝ :=
  (parseRate (String.mk (replaceCaret s.toList))).bind (dEval (evalEnv T_e T_g))

/-- `get_rate_coefficient` of `src/data/kinetics.py` lines 27-59.  A
string cell is treated as an expression only when it contains the
substring `Te` or `Tg`; any other cell goes through `float(value)`.  Both
failure paths and a missing reaction degrade to rate 0 with a logged
message; totality of this Lean function is the model of "never raises". -/
noncomputable def get_rate_coefficient (reaction : String) (df : List Row)
    (T_e T_g : ℝ) : ℝ × List String :=
  match lookupReaction df reaction with
  | none => (0, ["No data found for reaction: " ++ reaction])
  | some row =>
    match row.value with
    | CellValue.str s =>
      if strContains s "Te" || strContains s "Tg" then
        match evalRateExpr s T_e T_g with
        | some r => (r, [])
        | none => (0, ["Failed to evaluate rate for " ++ reaction ++ ": " ++ s])
      else
        match pyFloat s with
        | some p => (pyFloatVal p, [])
        | none => (0, ["Cannot convert value to float for " ++ reaction ++ ": " ++ s])
    | CellValue.num x => (x, [])

/-- Species concentrations of the 6-species reduced variant, in the order
of `src/data/kinetics.py` line 77. -/
structure Conc6 where
  N : ℝ
  H2 : ℝ
  NH : ℝ
  NH2 : ℝ
  NH3 : ℝ
  N2 : ℝ

/-- `plasma_kinetics` of `src/data/kinetics.py` lines 62-98: the 6-species
ODE right-hand side.  The rates dictionary is inlined; note (faithful to
the source) that the entry labelled `H + NH2 → NH3 + H` is looked up under
the table key `H2 + NH2 → NH3 + H`, and that the two thermal NH3-producing
rates pass `T_g` in the `T_e` argument position, leaving the `T_g`
parameter at its Python default of 300. -/
noncomputable def plasma_kinetics (y : Conc6) (t : ℝ) (df : List Row)
    (T_e T_g n_e : ℝ) : Conc6 :=
  let rNH2prod := (get_rate_coefficient "N + H2 → NH + H" df T_e T_g).1
  let rENH3a := (get_rate_coefficient "e + NH3 → NH2 + H" df T_e 300).1
  let rHNH2 := (get_rate_coefficient "H2 + NH2 → NH3 + H" df T_g 300).1
  let rNHNH2 := (get_rate_coefficient "NH + NH2 → NH3 + N" df T_g 300).1
  let rENH3b := (get_rate_coefficient "e + NH3 → NH + H2" df T_e 300).1
  { N := -rNH2prod * y.N * y.H2 + rNHNH2 * y.N * y.NH2
    H2 := -rNH2prod * y.N * y.H2 + rHNH2 * y.NH2 + rENH3b * n_e * y.NH3
    NH := rNH2prod * y.N * y.H2 - rNHNH2 * y.N * y.NH2 + rENH3b * n_e * y.NH3
    NH2 := rENH3a * n_e * y.NH3 - rHNH2 * y.NH2 - rNHNH2 * y.N * y.NH2
    NH3 := rHNH2 * y.NH2 + rNHNH2 * y.N * y.NH2 - rENH3a * n_e * y.NH3 - rENH3b * n_e * y.NH3
    N2 := 0 }

end Data

/-! ## Evaluation contexts versus the spec allow-list -/

/-- The names bound by the globals dictionary of the `eval` call at
`src/app/kinetics.py` line 53: the entire `numpy` module is bound under
`np`, alongside the three state variables.  (Python additionally injects
the full builtins module into any globals dictionary that lacks a
`__builtins__` key, as this one does.) -/
def appEvalGlobalNames : List String := ["np", "T_g", "T_e", "E_v"]

/-- The names bound by the globals dictionary of the `eval` call at
`src/data/kinetics.py` line 47. -/
def dataEvalGlobalNames : List String := ["Te", "Tg", "exp"]

/-- The allow-list stated by the spec: the three plasma-state variables
and the exponential function, nothing else. -/
def specAllowListedNames : List String := ["T_e", "T_g", "E_v", "exp"]

/-! ## Claim theorems -/

/-- C1: the claim says the rate-expression evaluator runs in a context
exposing only the allow-listed variables `T_e`, `T_g`, `E_v` and the
natural exponential.  The code instead hands the expression to Python
`eval` whose globals bind the entire `numpy` module under the name `np`
(`src/app/kinetics.py` line 53) — a binding outside the allow-list (and,
since the globals lack a `__builtins__` key, Python injects the full
builtins, an arbitrary code-execution surface).  This theorem records the
source-visible part: the evaluation context contains a name that is not
allow-listed. -/
theorem c1_eval_context_exceeds_allowlist :
    "np" ∈ appEvalGlobalNames ∧ "np" ∉ specAllowListedNames := by
  decide

/-- C2: for every rate table, reaction name and plasma state, each failure
path of either variant's `get_rate_coefficient` — reaction absent from the
table, expression-evaluation failure, float-cast failure — returns rate 0
together with a logged warning message.  The evaluators are total Lean
functions (every Python exception along these paths is caught in the
source), which is the model of "never raises to its caller". -/
theorem c2_rate_evaluator_degrades_to_zero (df : List Row) (reaction : String)
    (T_e T_g E_v : ℝ) :
    (App.lookupReaction df reaction = none →
      App.get_rate_coefficient reaction df T_e T_g E_v =
        (0, ["No data found for reaction: " ++ reaction]))
    ∧ (∀ row s, App.lookupReaction df reaction = some row →
        row.value = CellValue.str s →
        App.evalRateExpr s T_e T_g E_v = none →
        App.get_rate_coefficient reaction df T_e T_g E_v =
          (0, ["Error evaluating rate expression for reaction " ++ reaction]))
    ∧ (Data.lookupReaction df reaction = none →
        Data.get_rate_coefficient reaction df T_e T_g =
          (0, ["No data found for reaction: " ++ reaction]))
    ∧ (∀ row s, Data.lookupReaction df reaction = some row →
        row.value = CellValue.str s →
        (strContains s "Te" || strContains s "Tg") = true →
        Data.evalRateExpr s T_e T_g = none →
        Data.get_rate_coefficient reaction df T_e T_g =
          (0, ["Failed to evaluate rate for " ++ reaction ++ ": " ++ s]))
    ∧ (∀ row s, Data.lookupReaction df reaction = some row →
        row.value = CellValue.str s →
        (strContains s "Te" || strContains s "Tg") = false →
        pyFloat s = none →
        Data.get_rate_coefficient reaction df T_e T_g =
          (0, ["Cannot convert value to float for " ++ reaction ++ ": " ++ s])) := by
  refine ⟨?_, ?_, ?_, ?_, ?_⟩
  · intro h
    simp [App.get_rate_coefficient, h]
  · intro row s h hv hev
    simp [App.get_rate_coefficient, h, hv, hev]
  · intro h
    simp [Data.get_rate_coefficient, h]
  · intro row s h hv hc hev
    simp [Data.get_rate_coefficient, h, hv, hc, hev]
  · intro row s h hv hc hpf
    simp [Data.get_rate_coefficient, h, hv, hc, hpf]

/-- Witness for C2 at a concrete input: the empty table misses every
reaction, and both variants return 0 with the not-found warning. -/
theorem c2_rate_evaluator_degrades_to_zero_witness :
    App.get_rate_coefficient "N + H" [] 1 1 0 =
      (0, ["No data found for reaction: N + H"])
    ∧ Data.get_rate_coefficient "N + H" [] 1 1 =
      (0, ["No data found for reaction: N + H"]) :=
  ⟨(c2_rate_evaluator_degrades_to_zero [] "N + H" 1 1 0).1 rfl,
   (c2_rate_evaluator_degrades_to_zero [] "N + H" 1 1 0).2.2.1 rfl⟩

/-- C8: in the reduced (6-species) variant, the derivative of N2 returned
by the right-hand side is identically zero, for every concentration
vector, time, rate table and plasma parameters. -/
theorem c8_reduced_variant_N2_inert (y : Data.Conc6) (t : ℝ) (df : List Row)
    (T_e T_g n_e : ℝ) :
    (Data.plasma_kinetics y t df T_e T_g n_e).N2 = 0 :=
  rfl

/-- C9: in the reduced variant, the two thermal NH3-producing terms use
rate coefficients obtained by passing the gas temperature `T_g` in the
electron-temperature argument position with the gas-temperature parameter
left at its default 300, and the term labelled `H + NH2 → NH3 + H` is
looked up under the table key `H2 + NH2 → NH3 + H` — so a table holding
the reaction only under the key `H + NH2 → NH3 + H` contributes rate 0. -/
theorem c9_reduced_variant_rate_lookup_keys_and_arguments
    (y : Data.Conc6) (t : ℝ) (df : List Row) (T_e T_g n_e : ℝ) :
    (Data.plasma_kinetics y t df T_e T_g n_e).NH3 =
        (Data.get_rate_coefficient "H2 + NH2 → NH3 + H" df T_g 300).1 * y.NH2
      + (Data.get_rate_coefficient "NH + NH2 → NH3 + N" df T_g 300).1 * y.N * y.NH2
      - (Data.get_rate_coefficient "e + NH3 → NH2 + H" df T_e 300).1 * n_e * y.NH3
      - (Data.get_rate_coefficient "e + NH3 → NH + H2" df T_e 300).1 * n_e * y.NH3
    ∧ (Data.get_rate_coefficient "H2 + NH2 → NH3 + H"
        [{ reaction := "H + NH2 → NH3 + H", value := CellValue.num 7 }] T_g 300).1 = 0 :=
  ⟨rfl, rfl⟩

/-- C4: for every reaction whose table row stores a purely numeric rate
(a non-string cell), both variants return exactly that value, whatever
the plasma-state arguments are. -/
theorem c4_numeric_rate_returned_exactly (df : List Row) (reaction : String)
    (row : Row) (x : ℝ) (T_e T_g E_v : ℝ) :
    (App.lookupReaction df reaction = some row → row.value = CellValue.num x →
      (App.get_rate_coefficient reaction df T_e T_g E_v).1 = x)
    ∧ (Data.lookupReaction df reaction = some row → row.value = CellValue.num x →
      (Data.get_rate_coefficient reaction df T_e T_g).1 = x) := by
  constructor
  · intro h hv
    simp [App.get_rate_coefficient, h, hv]
  · intro h hv
    simp [Data.get_rate_coefficient, h, hv]

/-- Witness for C4 at a concrete input: a table storing the numeric value
5 yields exactly 5 from both variants, here at plasma state
`T_e = 7, T_g = 8, E_v = 9`. -/
theorem c4_numeric_rate_returned_exactly_witness :
    (App.get_rate_coefficient "R1" [{ reaction := "R1", value := CellValue.num 5 }] 7 8 9).1 = 5
    ∧ (Data.get_rate_coefficient "R1" [{ reaction := "R1", value := CellValue.num 5 }] 7 8).1 = 5 :=
  ⟨(c4_numeric_rate_returned_exactly
      [{ reaction := "R1", value := CellValue.num 5 }] "R1"
      { reaction := "R1", value := CellValue.num 5 } 5 7 8 9).1 rfl rfl,
   (c4_numeric_rate_returned_exactly
      [{ reaction := "R1", value := CellValue.num 5 }] "R1"
      { reaction := "R1", value := CellValue.num 5 } 5 7 8 9).2 rfl rfl⟩

/-- C5: the empirical power-scaling electron-density model never returns a
value below the floor 1e10 cm⁻³, for every `T_e > 0` and
`power_density ≥ 0` (indeed for all inputs, by the final `max`). -/
theorem c5_electron_density_floor (T_e power_density : ℝ)
    (hT : 0 < T_e) (hp : 0 ≤ power_density) :
    1e10 ≤ App.saha_electron_density T_e power_density :=
  le_max_right _ _

/-- Witness for C5 at the concrete input `T_e = 2, power_density = 1`. -/
theorem c5_electron_density_floor_witness :
    (0 : ℝ) < 2 ∧ (0 : ℝ) ≤ 1 ∧ 1e10 ≤ App.saha_electron_density 2 1 :=
  ⟨two_pos, zero_le_one, c5_electron_density_floor 2 1 two_pos zero_le_one⟩

/-- C6 counterexample: the claim asserts strictly larger output for every
pair of power densities `p1 < p2` at fixed `T_e > 0`, but the floor
clamps both: at `T_e = 2`, powers `0 < 1/100` give the identical output
1e10, refuting strict monotonicity as claimed. -/
theorem c6_strict_monotonicity_counterexample :
    (0 : ℝ) < 2 ∧ (0 : ℝ) ≤ 0 ∧ (0 : ℝ) < 1 / 100 ∧
      App.saha_electron_density 2 0 = App.saha_electron_density 2 (1 / 100) := by
  refine ⟨two_pos, le_refl 0, by norm_num, ?_⟩
  unfold App.saha_electron_density
  norm_num [Real.one_rpow]

/-- C6 amended: strict monotonicity in power density does hold whenever
the unclamped value at the larger power exceeds the floor; below the
floor both outputs are clamped to 1e10 and may coincide. -/
theorem c6_strict_monotonicity_amended (T_e p1 p2 : ℝ) (hT : 0 < T_e)
    (hp1 : 0 ≤ p1) (h12 : p1 < p2)
    (habove : 1e10 < 1e11 * (p2 / 1.0) * (T_e / 2.0) ^ (1.5 : ℝ)) :
    App.saha_electron_density T_e p1 < App.saha_electron_density T_e p2 := by
  unfold App.saha_electron_density
  have hX : (0 : ℝ) < (T_e / 2.0) ^ (1.5 : ℝ) :=
    Real.rpow_pos_of_pos (by linarith) _
  have hlt : 1e11 * (p1 / 1.0) * (T_e / 2.0) ^ (1.5 : ℝ)
      < 1e11 * (p2 / 1.0) * (T_e / 2.0) ^ (1.5 : ℝ) := by
    have hpos : 0 < (p2 - p1) * (T_e / 2.0) ^ (1.5 : ℝ) :=
      mul_pos (sub_pos.mpr h12) hX
    nlinarith [hpos]
  calc max (1e11 * (p1 / 1.0) * (T_e / 2.0) ^ (1.5 : ℝ)) 1e10
      < 1e11 * (p2 / 1.0) * (T_e / 2.0) ^ (1.5 : ℝ) := max_lt hlt habove
    _ = max (1e11 * (p2 / 1.0) * (T_e / 2.0) ^ (1.5 : ℝ)) 1e10 :=
        (max_eq_left habove.le).symm

/-- Witness for the amended C6 at `T_e = 2, p1 = 0, p2 = 1`: the value at
the larger power, 1e11, exceeds the floor, and the output strictly
increases. -/
theorem c6_strict_monotonicity_amended_witness :
    (0 : ℝ) < 2 ∧ (0 : ℝ) ≤ 0 ∧ (0 : ℝ) < 1 ∧
      (1e10 : ℝ) < 1e11 * ((1 : ℝ) / 1.0) * ((2 : ℝ) / 2.0) ^ (1.5 : ℝ) ∧
      App.saha_electron_density 2 0 < App.saha_electron_density 2 1 := by
  have habove : (1e10 : ℝ) < 1e11 * ((1 : ℝ) / 1.0) * ((2 : ℝ) / 2.0) ^ (1.5 : ℝ) := by
    norm_num [Real.one_rpow]
  exact ⟨two_pos, le_refl 0, one_pos, habove,
    c6_strict_monotonicity_amended 2 0 1 two_pos (le_refl 0) one_pos habove⟩

/-- C7 counterexample: the claim asserts "fixed, distinct pre-exponential
factors and threshold energies for N2 and H2", but the two electron-impact
dissociation channels use the SAME pre-exponential factor 1e-9
(`src/app/kinetics.py` lines 92-93); only the threshold energies differ. -/
theorem c7_dissociation_constants_counterexample :
    App.dissPreExpN2 = App.dissPreExpH2 ∧ App.dissPreExpN2 = 1e-9 :=
  ⟨rfl, rfl⟩

/-- C7 amended: in the extended variant, for every rate table, state and
plasma parameters, each electron-impact dissociation channel contributes
exactly `+2 × rate × n_e × [molecule]` to the monomer derivative and
`−rate × n_e × [molecule]` to the diatomic derivative (exhibited as the
difference against the same right-hand side with `n_e = 0`, which isolates
the only `n_e`-dependent terms), where the rates have the closed form
`A · exp(−E_threshold / T_e)` with the common fixed pre-exponential factor
`A = 1e-9` and distinct fixed threshold energies (9 eV for N2, 8 eV for
H2), independent of the rate table. -/
theorem c7_dissociation_channel_contributions (df : List Row)
    (T_e T_g n_e catalyst_factor : ℝ) (y : App.Conc7) (t : ℝ) :
    ((App.plasma_kinetics t y df T_e T_g n_e catalyst_factor).N
        - (App.plasma_kinetics t y df T_e T_g 0 catalyst_factor).N
      = 2 * (App.dissPreExpN2 * Real.exp (-App.dissThresholdN2 / T_e)) * n_e * y.N2)
    ∧ ((App.plasma_kinetics t y df T_e T_g n_e catalyst_factor).N2
        - (App.plasma_kinetics t y df T_e T_g 0 catalyst_factor).N2
      = -((App.dissPreExpN2 * Real.exp (-App.dissThresholdN2 / T_e)) * n_e * y.N2))
    ∧ ((App.plasma_kinetics t y df T_e T_g n_e catalyst_factor).H
        - (App.plasma_kinetics t y df T_e T_g 0 catalyst_factor).H
      = 2 * (App.dissPreExpH2 * Real.exp (-App.dissThresholdH2 / T_e)) * n_e * y.H2)
    ∧ ((App.plasma_kinetics t y df T_e T_g n_e catalyst_factor).H2
        - (App.plasma_kinetics t y df T_e T_g 0 catalyst_factor).H2
      = -((App.dissPreExpH2 * Real.exp (-App.dissThresholdH2 / T_e)) * n_e * y.H2))
    ∧ App.dissPreExpN2 = 1e-9 ∧ App.dissPreExpH2 = 1e-9
    ∧ App.dissThresholdN2 = 9 ∧ App.dissThresholdH2 = 8
    ∧ App.dissThresholdN2 ≠ App.dissThresholdH2 := by
  refine ⟨?_, ?_, ?_, ?_, rfl, rfl, rfl, rfl, ?_⟩
  · simp only [App.plasma_kinetics]
    ring
  · simp only [App.plasma_kinetics]
    ring
  · simp only [App.plasma_kinetics]
    ring
  · simp only [App.plasma_kinetics]
    ring
  · unfold App.dissThresholdN2 App.dissThresholdH2
    norm_num

/-- C10: the reduced-variant evaluator treats a stored string as an
expression only when it contains the substring `Te` or `Tg`; for every
stored string lacking both, the result is exactly the outcome of a direct
float conversion — the parsed value on success, and 0 (with a warning) on
failure — never the value of expression evaluation. -/
theorem c10_expression_gate_requires_Te_or_Tg (df : List Row)
    (reaction : String) (T_e T_g : ℝ) (row : Row) (s : String)
    (h : Data.lookupReaction df reaction = some row)
    (hv : row.value = CellValue.str s)
    (hc : (strContains s "Te" || strContains s "Tg") = false) :
    Data.get_rate_coefficient reaction df T_e T_g =
      (match pyFloat s with
       | some p => (pyFloatVal p, [])
       | none => (0, ["Cannot convert value to float for " ++ reaction ++ ": " ++ s])) := by
  simp [Data.get_rate_coefficient, h, hv, hc]

/-- Witness for C10 at the concrete stored string `3*1e-10`: it contains
neither `Te` nor `Tg`, float conversion fails, and the evaluator returns
0 — even though expression evaluation would have produced the nonzero
value 3e-10 (second conjunct). -/
theorem c10_expression_gate_requires_Te_or_Tg_witness :
    (Data.get_rate_coefficient "R"
      [{ reaction := "R", value := CellValue.str "3*1e-10" }] 2 300).1 = 0
    ∧ Data.evalRateExpr "3*1e-10" 2 300 = some ((3 : ℝ) * ((10 : ℝ) ^ 10)⁻¹) := by
  constructor
  · have h := c10_expression_gate_requires_Te_or_Tg
      [{ reaction := "R", value := CellValue.str "3*1e-10" }] "R" 2 300
      { reaction := "R", value := CellValue.str "3*1e-10" } "3*1e-10"
      rfl rfl (by decide)
    rw [h]
    rfl
  · unfold Data.evalRateExpr
    rw [show parseRate (String.mk (replaceCaret "3*1e-10".toList)) =
        some (RExpr.mul
          (RExpr.lit { intPart := 3, fracPart := 0, fracLen := 0, expNeg := false, expVal := 0 })
          (RExpr.lit { intPart := 1, fracPart := 0, fracLen := 0, expNeg := true, expVal := 10 }))
      from by decide]
    norm_num [Option.bind, dEval, numLitVal]

/-- C3 counterexample: on the spec's reference expression
`4e-10*(T_g/300)^0.5*exp(-16600/T_g)`, stored verbatim, NEITHER variant
returns 4e-10 at `T_g = 300`; both return 0.  In the reduced variant the
string contains neither `Te` nor `Tg` (its variables are spelled `Te`/`Tg`
without underscores), so the string goes to `float(...)`, which fails; in
the extended variant `^` is never rewritten to `**`, so Python evaluates
bitwise xor on floats and the resulting `TypeError` degrades to 0. -/
theorem c3_reference_expression_counterexample :
    (Data.get_rate_coefficient "k1"
      [{ reaction := "k1",
         value := CellValue.str "4e-10*(T_g/300)^0.5*exp(-16600/T_g)" }] 2 300).1 = 0
    ∧ (App.get_rate_coefficient "k1"
      [{ reaction := "k1",
         value := CellValue.str "4e-10*(T_g/300)^0.5*exp(-16600/T_g)" }] 2 300 0).1 = 0
    ∧ (0 : ℝ) ≠ 4e-10 := by
  refine ⟨rfl, rfl, by norm_num⟩

/-- C3 amended: the reduced-variant evaluator does interpret `^` as
exponentiation (second conjunct: `Tg^2` at `Tg = 3` evaluates to the real
power `3 ^ 2`, not bitwise xor) and `exp` as the natural exponential; on
the reference expression spelled in that variant's variable names,
`4e-10*(Tg/300)^0.5*exp(-16600/Tg)` at `Tg = 300` evaluates to
`4e-10 · exp(−16600/300)` — not `4e-10`: the exponential factor is not 1
at the reference temperature.  The extended variant performs no `^`
normalization at all (third conjunct: its evaluation of a `^` expression
fails and degrades). -/
theorem c3_caret_power_and_exp_amended :
    (Data.get_rate_coefficient "k1"
      [{ reaction := "k1",
         value := CellValue.str "4e-10*(Tg/300)^0.5*exp(-16600/Tg)" }] 2 300).1
      = 4e-10 * Real.exp (-(16600 / 300))
    ∧ Data.evalRateExpr "Tg^2" 5 3 = some ((3 : ℝ) ^ (2 : ℝ))
    ∧ App.evalRateExpr "(T_g/300)^0.5" 2 300 0 = none := by
  refine ⟨?_, ?_, rfl⟩
  · have hparse : parseRate (String.mk (replaceCaret
        "4e-10*(Tg/300)^0.5*exp(-16600/Tg)".toList)) =
        some (RExpr.mul
          (RExpr.mul
            (RExpr.lit { intPart := 4, fracPart := 0, fracLen := 0, expNeg := true, expVal := 10 })
            (RExpr.pow
              (RExpr.div (RExpr.var "Tg")
                (RExpr.lit { intPart := 300, fracPart := 0, fracLen := 0, expNeg := false, expVal := 0 }))
              (RExpr.lit { intPart := 0, fracPart := 5, fracLen := 1, expNeg := false, expVal := 0 })))
          (RExpr.call "exp"
            (RExpr.div
              (RExpr.neg (RExpr.lit { intPart := 16600, fracPart := 0, fracLen := 0, expNeg := false, expVal := 0 }))
              (RExpr.var "Tg")))) := by decide
    have heval : Data.evalRateExpr "4e-10*(Tg/300)^0.5*exp(-16600/Tg)" 2 300 =
        some (4e-10 * Real.exp (-(16600 / 300))) := by
      unfold Data.evalRateExpr
      rw [hparse]
      norm_num +decide [Option.bind, dEval, numLitVal, Data.evalEnv, Real.one_rpow]
    simp [Data.get_rate_coefficient, show (strContains "4e-10*(Tg/300)^0.5*exp(-16600/Tg)" "Te"
      || strContains "4e-10*(Tg/300)^0.5*exp(-16600/Tg)" "Tg") = true from by decide,
      Data.lookupReaction, heval]
  · unfold Data.evalRateExpr
    rw [show parseRate (String.mk (replaceCaret "Tg^2".toList)) =
        some (RExpr.pow (RExpr.var "Tg")
          (RExpr.lit { intPart := 2, fracPart := 0, fracLen := 0, expNeg := false, expVal := 0 }))
      from by decide]
    norm_num +decide [Option.bind, dEval, numLitVal, Data.evalEnv]

end AmmoniaPlasma
